import Mathlib

/-!
Verification development for the book-finder aggregation service.

The Python sources under `src/` are shallowly embedded below:
pure dict/string manipulation becomes functions over a small JSON value
type `JValue`, Python exceptions become `Except PyErr`, and the
network-facing pagination loops of the two source clients become
functions over an explicit trace of per-request outcomes
(`FetchOutcome`).  Machine strings are modelled over their character
lists; `str.lower`/`str.strip` are modelled on the ASCII fragment that
the code exercises.
-/

namespace BookFinder

/-- Characters removed by Python `str.strip()` / split on by `str.split()`
(ASCII whitespace fragment). -/
def isPySpace (c : Char) : Bool :=
  c = ' ' || c = '\t' || c = '\n' || c = '\r' || c = '\x0b' || c = '\x0c'

/-- Model of Python `str.lower` on a single character (ASCII fragment). -/
def pyLowerChar (c : Char) : Char :=
  if 'A' ≤ c ∧ c ≤ 'Z' then Char.ofNat (c.toNat + 32) else c

/-- Model of Python `str.lower` (ASCII fragment). -/
def pyLower (s : String) : String := ⟨s.data.map pyLowerChar⟩

/-- Strip leading and trailing Python whitespace from a character list. -/
def pyStripList (l : List Char) : List Char :=
  ((l.dropWhile isPySpace).reverse.dropWhile isPySpace).reverse

/-- Model of Python `str.strip()`. -/
def pyStrip (s : String) : String := ⟨pyStripList s.data⟩

/-- Helper for `pyWords`: accumulate the current word (reversed) while
scanning the remaining characters. -/
def pyWordsAux : List Char → List Char → List String
  | [], cur => if cur.isEmpty then [] else [⟨cur.reverse⟩]
  | c :: rest, cur =>
    if isPySpace c then
      if cur.isEmpty then pyWordsAux rest [] else (⟨cur.reverse⟩ : String) :: pyWordsAux rest []
    else pyWordsAux rest (c :: cur)

/-- Model of Python `str.split()` with no argument: split on whitespace
runs, dropping empty fields. -/
def pyWords (s : String) : List String := pyWordsAux s.data []

/-- Parsed JSON values, as produced by `response.json()`.  Numbers are
modelled as integers (the payload fields the code reads are counts and
years; floats are not exercised by any claim). -/
inductive JValue where
  | null
  | bool (b : Bool)
  | int (n : Int)
  | str (s : String)
  | list (xs : List JValue)
  | obj (fields : List (String × JValue))

/-- The Python exception classes distinguished by the code's `except`
clauses. -/
inductive PyErr where
  | valueError
  | typeError
  | indexError
  | keyError
  | attrError
deriving DecidableEq, Repr

/-- Python truthiness of a JSON value. -/
def pyTruthy : JValue → Bool
  | JValue.null => false
  | JValue.bool b => b
  | JValue.int n => n ≠ 0
  | JValue.str s => s ≠ ""
  | JValue.list xs => !xs.isEmpty
  | JValue.obj fs => !fs.isEmpty

/-- Python `str()` rendering of a JSON value.  Lists and dicts are given
a simplified rendering: no claim exercises them. -/
def pyStr : JValue → String
  | JValue.null => "None"
  | JValue.bool b => cond b "True" "False"
  | JValue.int n => toString n
  | JValue.str s => s
  | JValue.list _ => "[...]"
  | JValue.obj _ => "\x7b...\x7d"

/-- Python `dict.get(key, default)` on an object's field list. -/
def pyDictGet (fields : List (String × JValue)) (key : String) (dflt : JValue) : JValue :=
  match fields.lookup key with
  | some v => v
  | none => dflt

/-- Python `value.get(key, default)`: raises `AttributeError` when the
value is not a dict. -/
def pyGet (v : JValue) (key : String) (dflt : JValue) : Except PyErr JValue :=
  match v with
  | JValue.obj fields => .ok (pyDictGet fields key dflt)
  | _ => .error PyErr.attrError

/-- Accumulate decimal digits; `none` marks "no digit seen yet" and a
non-digit character fails the whole parse. -/
def parseDigits : List Char → Option Nat → Option Nat
  | [], acc => acc
  | c :: rest, acc =>
    if '0' ≤ c ∧ c ≤ '9' then
      parseDigits rest (some ((acc.getD 0) * 10 + (c.toNat - 48)))
    else none

/-- Decimal integer parse of a character list: optional sign followed
by at least one ASCII digit (digit-group underscores are not
modelled). -/
def pyIntOfChars : List Char → Option Int
  | '-' :: rest => (parseDigits rest none).map (fun n => -(n : Int))
  | '+' :: rest => (parseDigits rest none).map (fun n => (n : Int))
  | l => (parseDigits l none).map (fun n => (n : Int))

/-- Python `int(x)`: identity on ints, 0/1 on bools, decimal parse of
the whitespace-stripped string (`ValueError` on failure), `TypeError`
otherwise. -/
def pyToInt : JValue → Except PyErr Int
  | JValue.int n => .ok n
  | JValue.bool b => .ok (cond b 1 0)
  | JValue.str s =>
    match pyIntOfChars (pyStrip s).data with
    | some n => .ok n
    | none => .error PyErr.valueError
  | _ => .error PyErr.typeError

/-- Python `x[0]`: head of a list (`IndexError` when empty), first
character of a string, `KeyError` on a (string-keyed) dict, `TypeError`
on non-subscriptable values. -/
def pyIndex0 : JValue → Except PyErr JValue
  | JValue.list [] => .error PyErr.indexError
  | JValue.list (x :: _) => .ok x
  | JValue.str s =>
    match s.data with
    | [] => .error PyErr.indexError
    | c :: _ => .ok (JValue.str ⟨[c]⟩)
  | JValue.obj _ => .error PyErr.keyError
  | _ => .error PyErr.typeError

/-- `models/book.py`: the `Book` dataclass, whose generated `__init__`
accepts exactly these four fields.  Both clients pass an additional
`thumbnail=` argument (and `format_json` reads `book.thumbnail`), so
every `Book(...)` call in the clients raises `TypeError`; the parse
models below reflect that. -/
structure Book where
  title : String
  published_year : Option Int
  url : String
  source : String
deriving DecidableEq, Repr

/-- The `status` field of a source result dict: `"success"`, `"partial"`
or `"error"`. -/
inductive SourceStatus where
  | success
  | partialStatus
  | error
deriving DecidableEq, Repr

/-- The dict returned by `get_books_by_author` of either client:
`books`, `status`, and the optional `error` / `count` keys. -/
structure SourceResult where
  books : List Book
  status : SourceStatus
  error : Option String
  count : Option Nat
deriving DecidableEq, Repr

/-- `OpenLibraryClient._extract_year` (open_library.py:207-222).
`int(year)` on a truthy `first_publish_year` can raise; the inner
`try` around `int(publish_years[0])` catches only `ValueError` and
`IndexError`. -/
def OL_extract_year (doc : List (String × JValue)) : Except PyErr (Option Int) :=
  let year := pyDictGet doc "first_publish_year" JValue.null
  if pyTruthy year then
    match pyToInt year with
    | .ok n => .ok (some n)
    | .error e => .error e
  else
    let publish_years := pyDictGet doc "publish_year" (JValue.list [])
    if pyTruthy publish_years then
      match (pyIndex0 publish_years).bind pyToInt with
      | .ok n => .ok (some n)
      | .error PyErr.valueError => .ok none
      | .error PyErr.indexError => .ok none
      | .error e => .error e
    else .ok none

/-- `GoogleBooksClient._extract_year` (google_books.py:217-228).
`published_date.split("-")` raises `AttributeError` when the truthy
`publishedDate` is not a string; `int(...)` failures are caught. -/
def GB_extract_year (volume_info : List (String × JValue)) : Except PyErr (Option Int) :=
  let published_date := pyDictGet volume_info "publishedDate" (JValue.str "")
  if pyTruthy published_date then
    match published_date with
    | JValue.str s =>
      let year := (s.splitOn "-").headD ""
      match pyToInt (JValue.str year) with
      | .ok n => .ok (some n)
      | .error _ => .ok none
    | _ => .error PyErr.attrError
  else .ok none

/-- The per-doc body of `OpenLibraryClient._parse_response`
(open_library.py:176-200).  A doc without a usable title is skipped.
For a doc with one, either `_extract_year` raises, or — after the url
and cover-url computations — the `Book(..., thumbnail=...)` call at
open_library.py:194-200 raises `TypeError`, because the `Book`
dataclass of models/book.py declares no `thumbnail` parameter.  Either
exception is caught by the method's blanket `except`, which returns
the books collected so far: nothing was ever appended, so the page
contributes no record.  (The cover-url computation, which can itself
raise for a truthy non-string catalog key, is not modelled separately:
its exception reaches the same handler with the same outcome.) -/
def OL_parse_docs : List JValue → List Book
  | [] => []
  | d :: rest =>
    match d with
    | JValue.obj fields =>
      (match pyDictGet fields "title" JValue.null with
       | JValue.str s =>
         if s = "" then OL_parse_docs rest
         else
           match OL_extract_year fields with
           | .error _ => []
           | .ok _ => []
       | _ => OL_parse_docs rest)
    | _ => OL_parse_docs rest

/-- `OpenLibraryClient._parse_response` (open_library.py:166-205).
A non-dict payload makes `data.get` raise; the blanket `except`
returns the empty list, as does a non-list `docs` field. -/
def OL_parse_response (data : JValue) : List Book :=
  match pyGet data "docs" (JValue.list []) with
  | .error _ => []
  | .ok (JValue.list docs) => OL_parse_docs docs
  | .ok _ => []

/-- The per-item body of `GoogleBooksClient._parse_response`
(google_books.py:181-210), under the same exception discipline as
`OL_parse_docs`: for every item with a usable title, either
`_extract_year` raises or the `Book(..., thumbnail=...)` call at
google_books.py:204-210 raises `TypeError`, so no record is ever
produced. -/
def GB_parse_items : List JValue → List Book
  | [] => []
  | it :: rest =>
    match it with
    | JValue.obj ifields =>
      (match pyDictGet ifields "volumeInfo" (JValue.obj []) with
       | JValue.obj volume_info =>
         (match pyDictGet volume_info "title" JValue.null with
          | JValue.str s =>
            if s = "" then GB_parse_items rest
            else
              match GB_extract_year volume_info with
              | .error _ => []
              | .ok _ => []
          | _ => GB_parse_items rest)
       | _ => GB_parse_items rest)
    | _ => GB_parse_items rest

/-- `GoogleBooksClient._parse_response` (google_books.py:171-215). -/
def GB_parse_response (data : JValue) : List Book :=
  match pyGet data "items" (JValue.list []) with
  | .error _ => []
  | .ok (JValue.list items) => GB_parse_items items
  | .ok _ => []

/-! ## The pagination loops

Each iteration of a client's retry loop issues exactly one HTTP
request; the network is modelled as a trace of per-request outcomes
consumed left to right.  A `requests.get` call either times out,
fails to connect, yields a non-2xx response (`raise_for_status`),
yields a 2xx response whose body is not JSON, or yields a parsed JSON
body. -/

/-- Outcome of one `requests.get` call. -/
inductive FetchOutcome where
  | timeout
  | connError
  | httpError (code : Option Int)
  | badJson
  | ok (data : JValue)

/-- Rendering of `status_code if e.response else None` inside the
`f"API error (HTTP ...)"` messages. -/
def httpCodeStr : Option Int → String
  | some n => toString n
  | none => "None"

/-- The `partial`-or-`error` result both clients build when a page
fails after zero or more records were collected. -/
def failResult (all_books : List Book) (partialMsg errMsg : String) : SourceResult :=
  if all_books.isEmpty then
    { books := [], status := SourceStatus.error, error := some errMsg, count := none }
  else
    { books := all_books, status := SourceStatus.partialStatus, error := some partialMsg,
      count := none }

/-- The final `success` returns shared by both clients
(open_library.py:153-164, google_books.py:158-169). -/
def finishResult (all_books : List Book) : SourceResult :=
  if all_books.isEmpty then
    { books := [], status := SourceStatus.success, error := none, count := some 0 }
  else
    { books := all_books, status := SourceStatus.success, error := none,
      count := some all_books.length }

/-- Where control goes after the `try` body of a page is processed:
either the method returns a result from inside the loop, or a `break`
transfers control to the check after the retry loop. -/
inductive PageStep (σ : Type) where
  | ret (r : SourceResult)
  | toCheck (st : σ)

/-- Loop state of `OpenLibraryClient.get_books_by_author`:
`all_books`, `offset`, `total_found` (`none` is Python `None`), and
the local variable `books` of the last executed iteration (`none`
while still unbound). -/
structure OLState where
  all_books : List Book
  offset : Int
  total_found : Option JValue
  books : Option (List Book)

def OL_RESULTS_PER_PAGE : Nat := 100
def OL_MAX_RETRIES : Nat := 2

/-- Python `n >= v` for an int left operand and a JSON right operand:
ints and bools compare numerically, anything else raises `TypeError`. -/
def pyGeIntJ (n : Int) (v : JValue) : Except PyErr Bool :=
  match v with
  | JValue.int m => .ok (m ≤ n)
  | JValue.bool b => .ok (cond b 1 0 ≤ n)
  | _ => .error PyErr.typeError

/-- Python `v or 0` (used as `total_found or 0`). -/
def pyOrZero : Option JValue → JValue
  | none => JValue.int 0
  | some v => if pyTruthy v then v else JValue.int 0

/-- The `try` body for a parsed page of `OpenLibraryClient`
(open_library.py:64-87).  A `PyErr` escaping the body is caught by the
blanket `except Exception` (open_library.py:135-147), which sees
`all_books` as already extended. -/
def ol_process (st : OLState) (data : JValue) : PageStep OLState :=
  let tfE : Except PyErr JValue :=
    match st.total_found with
    | none => pyGet data "numFound" (JValue.int 0)
    | some t => .ok t
  match tfE with
  | .error _ =>
    .ret (failResult st.all_books "Unexpected error, partial results" "Unexpected error")
  | .ok total_found =>
    let books := OL_parse_response data
    let st := { st with total_found := some total_found, books := some books }
    if books.isEmpty then .toCheck st
    else
      let all_books := st.all_books ++ books
      let st := { st with all_books := all_books }
      match pyGeIntJ (all_books.length : Int) total_found with
      | .error _ =>
        .ret (failResult all_books "Unexpected error, partial results" "Unexpected error")
      | .ok geTotal =>
        if geTotal || books.length < OL_RESULTS_PER_PAGE then .toCheck st
        else .toCheck { st with offset := st.offset + (OL_RESULTS_PER_PAGE : Int) }

/-- The check after the retry loop, open_library.py:149-151:
`if not books or len(all_books) >= (total_found or 0): break`.
`some true` breaks the outer loop, `some false` continues it; `none`
covers the two situations that cannot occur in a run started from the
initial state (`books` still unbound, or a comparison raising outside
any `try`). -/
def ol_check (st : OLState) : Option Bool :=
  match st.books with
  | none => none
  | some books =>
    if books.isEmpty then some true
    else
      match pyGeIntJ (st.all_books.length : Int) (pyOrZero st.total_found) with
      | .error _ => none
      | .ok b => some b

/-- `OpenLibraryClient.get_books_by_author` (open_library.py:20-164) as
a function of the outcome trace; each call consumes one outcome.
`none` means the run consumed the whole trace without returning (the
loop is still requesting pages). -/
def ol_loop : List FetchOutcome → OLState → Nat → Option SourceResult
  | [], _, _ => none
  | o :: rest, st, attempt =>
    match o with
    | FetchOutcome.timeout =>
      if attempt = OL_MAX_RETRIES - 1 then
        some (failResult st.all_books "Request timeout, partial results" "Request timeout")
      else ol_loop rest st (attempt + 1)
    | FetchOutcome.connError =>
      some (failResult st.all_books "Connection failed, partial results" "Connection failed")
    | FetchOutcome.httpError code =>
      some (failResult st.all_books
        ("API error (HTTP " ++ httpCodeStr code ++ "), partial results")
        ("API error (HTTP " ++ httpCodeStr code ++ ")"))
    | FetchOutcome.badJson =>
      if st.all_books.isEmpty then
        some { books := [], status := SourceStatus.error,
               error := some "Invalid response format", count := none }
      else
        (match ol_check st with
         | none => none
         | some true => some (finishResult st.all_books)
         | some false => ol_loop rest st 0)
    | FetchOutcome.ok data =>
      match ol_process st data with
      | PageStep.ret r => some r
      | PageStep.toCheck st' =>
        match ol_check st' with
        | none => none
        | some true => some (finishResult st'.all_books)
        | some false => ol_loop rest st' 0

/-- Entry point: the loop started from the initial state. -/
def OL_get_books_by_author (trace : List FetchOutcome) : Option SourceResult :=
  ol_loop trace { all_books := [], offset := 0, total_found := none, books := none } 0

/-- Loop state of `GoogleBooksClient.get_books_by_author`. -/
structure GBState where
  all_books : List Book
  start_index : Int
  total_items : Option JValue
  books : Option (List Book)

def GB_RESULTS_PER_PAGE : Nat := 40
def GB_MAX_RETRIES : Nat := 2

/-- Python `x == 0` (never raises): ints and bools compare numerically,
all other values are not equal to 0. -/
def pyEqZero : JValue → Bool
  | JValue.int n => n = 0
  | JValue.bool b => !b
  | _ => false

/-- The page-processing tail shared by first and later pages of
`GoogleBooksClient` (google_books.py:75-93). -/
def gb_page (st : GBState) (total_items : JValue) (data : JValue) : PageStep GBState :=
  let books := GB_parse_response data
  let st := { st with books := some books }
  if books.isEmpty then .toCheck st
  else
    let all_books := st.all_books ++ books
    let st := { st with all_books := all_books }
    match pyGeIntJ (st.start_index + (books.length : Int)) total_items with
    | .error _ =>
      .ret (failResult all_books "Unexpected error, partial results" "Unexpected error")
    | .ok geTotal =>
      if geTotal then .toCheck st
      else .toCheck { st with start_index := st.start_index + (GB_RESULTS_PER_PAGE : Int) }

/-- The `try` body for a parsed page of `GoogleBooksClient`
(google_books.py:49-93), including the first-page
`if total_items == 0` early return. -/
def gb_process (st : GBState) (data : JValue) : PageStep GBState :=
  match st.total_items with
  | none =>
    (match pyGet data "totalItems" (JValue.int 0) with
     | .error _ =>
       .ret (failResult st.all_books "Unexpected error, partial results" "Unexpected error")
     | .ok total_items =>
       if pyEqZero total_items then
         .ret { books := [], status := SourceStatus.success, error := none, count := some 0 }
       else gb_page { st with total_items := some total_items } total_items data)
  | some total_items => gb_page st total_items data

/-- The check after the retry loop, google_books.py:154-156:
`if not books or start_index >= (total_items or 0): break`. -/
def gb_check (st : GBState) : Option Bool :=
  match st.books with
  | none => none
  | some books =>
    if books.isEmpty then some true
    else
      match pyGeIntJ st.start_index (pyOrZero st.total_items) with
      | .error _ => none
      | .ok b => some b

/-- `GoogleBooksClient.get_books_by_author` (google_books.py:19-169)
over the outcome trace. -/
def gb_loop : List FetchOutcome → GBState → Nat → Option SourceResult
  | [], _, _ => none
  | o :: rest, st, attempt =>
    match o with
    | FetchOutcome.timeout =>
      if attempt = GB_MAX_RETRIES - 1 then
        some (failResult st.all_books "Request timeout, partial results" "Request timeout")
      else gb_loop rest st (attempt + 1)
    | FetchOutcome.connError =>
      some (failResult st.all_books "Connection failed, partial results" "Connection failed")
    | FetchOutcome.httpError code =>
      some (failResult st.all_books
        ("API error (HTTP " ++ httpCodeStr code ++ "), partial results")
        ("API error (HTTP " ++ httpCodeStr code ++ ")"))
    | FetchOutcome.badJson =>
      if st.all_books.isEmpty then
        some { books := [], status := SourceStatus.error,
               error := some "Invalid response format", count := none }
      else
        (match gb_check st with
         | none => none
         | some true => some (finishResult st.all_books)
         | some false => gb_loop rest st 0)
    | FetchOutcome.ok data =>
      match gb_process st data with
      | PageStep.ret r => some r
      | PageStep.toCheck st' =>
        match gb_check st' with
        | none => none
        | some true => some (finishResult st'.all_books)
        | some false => gb_loop rest st' 0

/-- Entry point: the loop started from the initial state. -/
def GB_get_books_by_author (trace : List FetchOutcome) : Option SourceResult :=
  gb_loop trace { all_books := [], start_index := 0, total_items := none, books := none } 0

/-! ## The aggregator (book_finder.py) -/

/-- One value of the `sources_status` mapping built by
`search_books_by_author`. -/
structure SourceEntry where
  status : SourceStatus
  count : Nat
  error : Option String
deriving DecidableEq, Repr

/-- The dict returned by `search_books_by_author`: `books`, `sources`,
and the `error` key present only on validation failures. -/
structure SearchResult where
  books : List Book
  sources : List (String × SourceEntry)
  error : Option String
deriving DecidableEq, Repr

/-- `_get_cache_key` (book_finder.py:19-21).  The md5 hexdigest of the
encoded key text is modelled as the identity on that text (the digest
is injective up to hash collisions, which no claim concerns). -/
def _get_cache_key (author_name : String) : String :=
  pyStrip (pyLower author_name)

/-- The module-level `_cache` dict: newest binding first. -/
abbrev Cache := List (String × SearchResult)

/-- The cache consultation at book_finder.py:46:
`use_cache and cache_key in _cache`. -/
def cacheLookup (use_cache : Bool) (key : String) (cache : Cache) : Option SearchResult :=
  if use_cache then cache.lookup key else none

/-- Stable insertion into a sorted list: `lt h x = true` means `h` must
come strictly before `x` in the final order, so `x` lands after every
such `h` and before the first element it ties with or precedes.  This
is the ordering behaviour of Python's stable `sorted`. -/
def pyInsertBy (lt : α → α → Bool) (x : α) : List α → List α
  | [] => [x]
  | h :: t => if lt h x then h :: pyInsertBy lt x t else x :: h :: t

/-- Model of Python `sorted(l, ...)` as a stable insertion sort. -/
def pySortBy (lt : α → α → Bool) (l : List α) : List α :=
  l.foldr (pyInsertBy lt) []

/-- The sort key of book_finder.py:91: `x.published_year or 0`
(`None` and `0` both give `0`). -/
def yearKey (b : Book) : Int := b.published_year.getD 0

/-- `sorted(unique_books, key=lambda x: x.published_year or 0,
reverse=True)` (book_finder.py:91): a stable descending sort. -/
def pySortYearDesc (l : List Book) : List Book :=
  pySortBy (fun h x => yearKey x < yearKey h) l

/-- Lexicographic strict order on character lists by code point, the
comparison Python uses for strings. -/
def charListLt : List Char → List Char → Bool
  | [], [] => false
  | [], _ :: _ => true
  | _ :: _, [] => false
  | a :: as, b :: bs =>
    if a.val < b.val then true
    else if b.val < a.val then false
    else charListLt as bs

/-- Strict comparison of the tuples
`(x.source, x.title.lower(), x.published_year or 0)` used as the sort
key at book_finder.py:116. -/
def dedupSortLt (a b : Book) : Bool :=
  if charListLt a.source.data b.source.data then true
  else if charListLt b.source.data a.source.data then false
  else if charListLt (pyLower a.title).data (pyLower b.title).data then true
  else if charListLt (pyLower b.title).data (pyLower a.title).data then false
  else yearKey a < yearKey b

/-- The dedup key of book_finder.py:119-127: the case-folded,
whitespace-normalized title joined with the year, or `"unknown"` when
the year is absent (or `0`, which is falsy). -/
def dedup_key (b : Book) : String :=
  let normalized_title := String.intercalate " " (pyWords (pyStrip (pyLower b.title)))
  let year_key : String :=
    match b.published_year with
    | some y => if y = 0 then "unknown" else toString y
    | none => "unknown"
  normalized_title ++ "|" ++ year_key

/-- The `seen`/`unique` loop of `_deduplicate_books`
(book_finder.py:118-131). -/
def dedupLoop (seen : List String) : List Book → List Book
  | [] => []
  | b :: rest =>
    if seen.contains (dedup_key b) then dedupLoop seen rest
    else b :: dedupLoop (dedup_key b :: seen) rest

/-- `_deduplicate_books` (book_finder.py:106-136).  This helper is
never invoked by `search_books_by_author`. -/
def _deduplicate_books (books : List Book) : List Book :=
  dedupLoop [] (pySortBy dedupSortLt books)

/-- The `sources_status["open_library"]` entry built at
book_finder.py:73-78. -/
def ol_source_entry (res : SourceResult) : SourceEntry :=
  if res.status = SourceStatus.error then
    { status := res.status, count := res.books.length,
      error := some (res.error.getD "Unknown error") }
  else
    { status := res.status, count := res.books.length, error := none }

/-- The fetch block of book_finder.py:68-85.  The Open Library client
invocation is abstracted as its produced result; `none` models the
`except Exception` path (the client itself raised). -/
def ol_fetch_step : Option SourceResult → List Book × List (String × SourceEntry)
  | some res => (res.books, [("open_library", ol_source_entry res)])
  | none =>
    ([], [("open_library",
           { status := SourceStatus.error, count := 0, error := some "Service unavailable" })])

/-- `search_books_by_author` (book_finder.py:24-103), parametrised by
the outcome of the single Open Library client call and by the cache
contents; returns the result dict and the cache afterwards.  Note the
code consults the cache before the length validation, performs no
deduplication (`unique_books = all_books`, book_finder.py:87-88), and
stores the result unconditionally when `use_cache` is set. -/
def search_books_by_author (ol_outcome : Option SourceResult) (author_name : String)
    (use_cache : Bool) (cache : Cache) : SearchResult × Cache :=
  if author_name = "" ∨ pyStrip author_name = "" then
    ({ books := [], sources := [], error := some "Author name cannot be empty" }, cache)
  else
    let author := pyStrip author_name
    let cache_key := _get_cache_key author
    match cacheLookup use_cache cache_key cache with
    | some cached => (cached, cache)
    | none =>
      if author.length < 2 then
        ({ books := [], sources := [],
           error := some "Author name too short (minimum 2 characters)" }, cache)
      else if 200 < author.length then
        ({ books := [], sources := [],
           error := some "Author name too long (maximum 200 characters)" }, cache)
      else
        let fetched := ol_fetch_step ol_outcome
        let unique_books := fetched.1
        let sorted_books := pySortYearDesc unique_books
        let result : SearchResult :=
          { books := sorted_books, sources := fetched.2, error := none }
        if use_cache then (result, (cache_key, result) :: cache) else (result, cache)

/-- The result built by the non-cached, validated path of
`search_books_by_author`. -/
def searchResultOf (ol_outcome : Option SourceResult) : SearchResult :=
  { books := pySortYearDesc (ol_fetch_step ol_outcome).1,
    sources := (ol_fetch_step ol_outcome).2, error := none }

/-! ## Helper lemmas -/

theorem mem_pyInsertBy {lt : α → α → Bool} {x y : α} {l : List α} :
    y ∈ pyInsertBy lt x l ↔ y = x ∨ y ∈ l := by
  induction l with
  | nil => simp [pyInsertBy]
  | cons h t ih =>
    simp only [pyInsertBy]
    split
    · simp only [List.mem_cons, ih]
      tauto
    · simp [List.mem_cons]

theorem pairwise_pyInsertBy_yearDesc (x : Book) (l : List Book)
    (hl : l.Pairwise (fun a b => yearKey b ≤ yearKey a)) :
    (pyInsertBy (fun h x => yearKey x < yearKey h) x l).Pairwise
      (fun a b => yearKey b ≤ yearKey a) := by
  induction l with
  | nil => simp [pyInsertBy]
  | cons h t ih =>
    rw [List.pairwise_cons] at hl
    simp only [pyInsertBy]
    split
    · rename_i hlt
      have hxh : yearKey x < yearKey h := by simpa using hlt
      rw [List.pairwise_cons]
      refine ⟨?_, ih hl.2⟩
      intro y hy
      rcases mem_pyInsertBy.mp hy with rfl | hy
      · exact le_of_lt hxh
      · exact hl.1 y hy
    · rename_i hge
      have hxh : yearKey h ≤ yearKey x := le_of_not_lt (by simpa using hge)
      rw [List.pairwise_cons]
      refine ⟨?_, List.pairwise_cons.mpr hl⟩
      intro y hy
      rcases List.mem_cons.mp hy with rfl | hy
      · exact hxh
      · exact le_trans (hl.1 y hy) hxh

theorem pairwise_pySortYearDesc (l : List Book) :
    (pySortYearDesc l).Pairwise (fun a b => yearKey b ≤ yearKey a) := by
  induction l with
  | nil => exact List.Pairwise.nil
  | cons x t ih => exact pairwise_pyInsertBy_yearDesc x _ ih

theorem filter_pyInsertBy_eq (x : Book) (l : List Book) (k : Int) (hx : yearKey x = k) :
    (pyInsertBy (fun h x => yearKey x < yearKey h) x l).filter (fun b => yearKey b == k)
      = x :: l.filter (fun b => yearKey b == k) := by
  induction l with
  | nil => simp [pyInsertBy, List.filter, hx]
  | cons h t ih =>
    simp only [pyInsertBy]
    split
    · rename_i hlt
      have hhk : (yearKey h == k) = false := by
        have : yearKey x < yearKey h := of_decide_eq_true hlt
        rw [beq_eq_false_iff_ne]
        omega
      simp only [List.filter, hhk, ih]
    · simp [List.filter, hx]

theorem filter_pyInsertBy_ne (x : Book) (l : List Book) (k : Int) (hx : yearKey x ≠ k) :
    (pyInsertBy (fun h x => yearKey x < yearKey h) x l).filter (fun b => yearKey b == k)
      = l.filter (fun b => yearKey b == k) := by
  have hxk : (yearKey x == k) = false := beq_eq_false_iff_ne.mpr hx
  induction l with
  | nil => simp [pyInsertBy, List.filter, hxk]
  | cons h t ih =>
    simp only [pyInsertBy]
    split
    · simp only [List.filter, ih]
    · simp only [List.filter, hxk]

theorem filter_pySortYearDesc (l : List Book) (k : Int) :
    (pySortYearDesc l).filter (fun b => yearKey b == k)
      = l.filter (fun b => yearKey b == k) := by
  induction l with
  | nil => rfl
  | cons x t ih =>
    show (pyInsertBy _ x (pySortYearDesc t)).filter _ = _
    by_cases hx : yearKey x = k
    · rw [filter_pyInsertBy_eq x _ k hx, ih]
      simp [List.filter, hx]
    · rw [filter_pyInsertBy_ne x _ k hx, ih]
      simp [List.filter, beq_eq_false_iff_ne.mpr hx]

theorem dedupLoop_distinct (l : List Book) :
    ∀ seen : List String,
      (∀ b ∈ dedupLoop seen l, ¬ seen.contains (dedup_key b)) ∧
      (dedupLoop seen l).Pairwise (fun x y => dedup_key x ≠ dedup_key y) := by
  induction l with
  | nil => intro seen; simp [dedupLoop]
  | cons b rest ih =>
    intro seen
    simp only [dedupLoop]
    split
    · exact ih seen
    · rename_i hb
      obtain ⟨ihmem, ihpw⟩ := ih (dedup_key b :: seen)
      constructor
      · intro y hy
        rcases List.mem_cons.mp hy with rfl | hy
        · simpa using hb
        · intro hc
          apply ihmem y hy
          have hmem : dedup_key y ∈ seen := by simpa using hc
          simp [List.contains_cons, hmem]
      · rw [List.pairwise_cons]
        refine ⟨?_, ihpw⟩
        intro y hy heq
        apply ihmem y hy
        simp [List.contains_cons, heq.symm]

theorem failResult_status (bs : List Book) (p e : String) :
    (failResult bs p e).status ≠ SourceStatus.success := by
  unfold failResult
  split <;> simp

theorem finishResult_shape (bs : List Book) :
    (finishResult bs).error = none ∧
      (finishResult bs).count = some (finishResult bs).books.length := by
  unfold finishResult
  split <;> simp_all [List.isEmpty_iff]

theorem ol_process_ret_status (st : OLState) (d : JValue) (r : SourceResult)
    (h : ol_process st d = PageStep.ret r) : r.status ≠ SourceStatus.success := by
  simp only [ol_process] at h
  split at h
  · cases h
    apply failResult_status
  · split at h
    · cases h
    · split at h
      · cases h
        apply failResult_status
      · split at h <;> cases h

theorem ol_loop_success_shape (trace : List FetchOutcome) :
    ∀ (st : OLState) (a : Nat) (r : SourceResult),
      ol_loop trace st a = some r → r.status = SourceStatus.success →
      r.error = none ∧ r.count = some r.books.length := by
  induction trace with
  | nil => intro st a r h; cases h
  | cons o rest ih =>
    intro st a r h hs
    cases o with
    | timeout =>
      simp only [ol_loop] at h
      split at h
      · cases h; exact absurd hs (failResult_status _ _ _)
      · exact ih st (a + 1) r h hs
    | connError =>
      simp only [ol_loop] at h
      cases h; exact absurd hs (failResult_status _ _ _)
    | httpError code =>
      simp only [ol_loop] at h
      cases h; exact absurd hs (failResult_status _ _ _)
    | badJson =>
      simp only [ol_loop] at h
      split at h
      · cases h; simp at hs
      · split at h
        · cases h
        · cases h; exact finishResult_shape _
        · exact ih st 0 r h hs
    | ok data =>
      simp only [ol_loop] at h
      split at h
      · rename_i r' hr'
        cases h
        exact absurd hs (ol_process_ret_status _ _ _ hr')
      · rename_i st' hst'
        split at h
        · cases h
        · cases h; exact finishResult_shape _
        · exact ih st' 0 r h hs

theorem gb_process_ret_shape (st : GBState) (d : JValue) (r : SourceResult)
    (h : gb_process st d = PageStep.ret r) (hs : r.status = SourceStatus.success) :
    r.error = none ∧ r.count = some r.books.length := by
  simp only [gb_process, gb_page] at h
  split at h
  · split at h
    · cases h; exact absurd hs (failResult_status _ _ _)
    · split at h
      · cases h; simp
      · split at h
        · cases h
        · split at h
          · cases h; exact absurd hs (failResult_status _ _ _)
          · split at h <;> cases h
  · split at h
    · cases h
    · split at h
      · cases h; exact absurd hs (failResult_status _ _ _)
      · split at h <;> cases h

theorem pyLower_length (s : String) : (pyLower s).length = s.length := by
  show (s.data.map pyLowerChar).length = s.data.length
  exact List.length_map _ _

theorem pyStrip_empty : pyStrip "" = "" := rfl

theorem pyStrip_ne_of_length {a : String} (h : (pyStrip a).length ≠ 0) :
    pyStrip a ≠ "" := by
  intro hc
  rw [hc] at h
  exact h rfl

theorem search_not_empty_cond {a : String} (h : pyStrip a ≠ "") :
    ¬(a = "" ∨ pyStrip a = "") := by
  rintro (rfl | hc)
  · exact h pyStrip_empty
  · exact h hc

set_option maxRecDepth 4096 in
/-- Evaluation of `search_books_by_author` on a validated, non-cached
query. -/
theorem search_books_eval (out : Option SourceResult) (a : String) (u : Bool) (c : Cache)
    (h2 : 2 ≤ (pyStrip a).length) (h3 : (pyStrip a).length ≤ 200)
    (h4 : cacheLookup u (_get_cache_key (pyStrip a)) c = none) :
    search_books_by_author out a u c =
      (if u then (searchResultOf out, (_get_cache_key (pyStrip a), searchResultOf out) :: c)
       else (searchResultOf out, c)) := by
  have hne := pyStrip_ne_of_length (a := a) (by omega)
  simp only [search_books_by_author, if_neg (search_not_empty_cond hne), h4]
  rw [if_neg (by omega), if_neg (by omega)]
  rfl

theorem gb_loop_success_shape (trace : List FetchOutcome) :
    ∀ (st : GBState) (a : Nat) (r : SourceResult),
      gb_loop trace st a = some r → r.status = SourceStatus.success →
      r.error = none ∧ r.count = some r.books.length := by
  induction trace with
  | nil => intro st a r h; cases h
  | cons o rest ih =>
    intro st a r h hs
    cases o with
    | timeout =>
      simp only [gb_loop] at h
      split at h
      · cases h; exact absurd hs (failResult_status _ _ _)
      · exact ih st (a + 1) r h hs
    | connError =>
      simp only [gb_loop] at h
      cases h; exact absurd hs (failResult_status _ _ _)
    | httpError code =>
      simp only [gb_loop] at h
      cases h; exact absurd hs (failResult_status _ _ _)
    | badJson =>
      simp only [gb_loop] at h
      split at h
      · cases h; simp at hs
      · split at h
        · cases h
        · cases h; exact finishResult_shape _
        · exact ih st 0 r h hs
    | ok data =>
      simp only [gb_loop] at h
      split at h
      · rename_i r' hr'
        cases h
        exact gb_process_ret_shape _ _ _ hr' hs
      · rename_i st' hst'
        split at h
        · cases h
        · cases h; exact finishResult_shape _
        · exact ih st' 0 r h hs

/-- A cache hit: a validated author whose key is the most recent cache
binding returns the stored result and leaves the cache unchanged
(book_finder.py:46-48). -/
theorem search_cache_hit (out2 : Option SourceResult) (a2 key : String)
    (r : SearchResult) (c : Cache) (hne2 : pyStrip a2 ≠ "")
    (hkey : _get_cache_key (pyStrip a2) = key) :
    search_books_by_author out2 a2 true ((key, r) :: c) = (r, (key, r) :: c) := by
  simp only [search_books_by_author, if_neg (search_not_empty_cond hne2), hkey]
  simp [cacheLookup, List.lookup]

/-! ## Demonstration data for the concrete counterexamples and
witnesses -/

/-- A record that Open Library delivers twice in the demonstration
below. -/
def duneBook : Book :=
  { title := "Dune", published_year := some 1965, url := "u", source := "open_library" }

/-- A source result carrying the same record twice: the two copies
share their dedup key. -/
def dupResult : SourceResult :=
  { books := [duneBook, duneBook], status := SourceStatus.success, error := none,
    count := some 2 }

/-- A one-record source result. -/
def demoResult : SourceResult :=
  { books := [duneBook], status := SourceStatus.success, error := none, count := some 1 }

/-- An Open Library doc carrying only a title. -/
def olDocT : JValue := JValue.obj [("title", JValue.str "t")]

/-- A full first page: `numFound` 250 and 100 titled docs — the page
the spec expects to yield 100 collected records. -/
def olFullPage : JValue :=
  JValue.obj [("numFound", JValue.int 250),
              ("docs", JValue.list (List.replicate 100 olDocT))]

/-- No doc ever survives normalization: every branch of the per-doc
body skips the doc or aborts the page. -/
theorem OL_parse_docs_nil (docs : List JValue) : OL_parse_docs docs = [] := by
  induction docs with
  | nil => rfl
  | cons d rest ih =>
    simp only [OL_parse_docs]
    repeat' split
    all_goals first | rfl | exact ih

/-- Every Open Library page parses to zero records. -/
theorem OL_parse_response_nil (data : JValue) : OL_parse_response data = [] := by
  simp only [OL_parse_response]
  repeat' split
  all_goals first | rfl | exact OL_parse_docs_nil _

/-- No Google Books item ever survives normalization. -/
theorem GB_parse_items_nil (items : List JValue) : GB_parse_items items = [] := by
  induction items with
  | nil => rfl
  | cons it rest ih =>
    simp only [GB_parse_items]
    repeat' split
    all_goals first | rfl | exact ih

/-- Every Google Books page parses to zero records. -/
theorem GB_parse_response_nil (data : JValue) : GB_parse_response data = [] := by
  simp only [GB_parse_response]
  repeat' split
  all_goals first | rfl | exact GB_parse_items_nil _

/-- Starting from an empty `all_books`, every result the Open Library
loop returns carries zero records: pages parse to `[]`, so `all_books`
is never extended. -/
theorem ol_loop_books_empty (trace : List FetchOutcome) :
    ∀ (st : OLState) (a : Nat) (r : SourceResult),
      st.all_books = [] → ol_loop trace st a = some r → r.books = [] := by
  induction trace with
  | nil => intro st a r _ h; cases h
  | cons o rest ih =>
    intro st a r hst h
    cases o with
    | timeout =>
      simp only [ol_loop] at h
      split at h
      · cases h; simp [failResult, hst]
      · exact ih st (a + 1) r hst h
    | connError =>
      simp only [ol_loop] at h
      cases h; simp [failResult, hst]
    | httpError code =>
      simp only [ol_loop] at h
      cases h; simp [failResult, hst]
    | badJson =>
      simp only [ol_loop] at h
      split at h
      · cases h; rfl
      · rename_i hne
        rw [hst] at hne
        simp at hne
    | ok data =>
      simp only [ol_loop, ol_process, OL_parse_response_nil data, List.isEmpty_nil,
        if_true, ol_check] at h
      split at h
      · rename_i r' heq
        split at heq
        · cases heq
          cases h
          simp [failResult, hst]
        · cases heq
      · rename_i st' heq
        split at heq
        · cases heq
        · cases heq
          simp only [List.isEmpty_nil, if_true] at h
          cases h
          simp [finishResult, hst]

/-- The Google Books analogue of `ol_loop_books_empty`. -/
theorem gb_loop_books_empty (trace : List FetchOutcome) :
    ∀ (st : GBState) (a : Nat) (r : SourceResult),
      st.all_books = [] → gb_loop trace st a = some r → r.books = [] := by
  induction trace with
  | nil => intro st a r _ h; cases h
  | cons o rest ih =>
    intro st a r hst h
    cases o with
    | timeout =>
      simp only [gb_loop] at h
      split at h
      · cases h; simp [failResult, hst]
      · exact ih st (a + 1) r hst h
    | connError =>
      simp only [gb_loop] at h
      cases h; simp [failResult, hst]
    | httpError code =>
      simp only [gb_loop] at h
      cases h; simp [failResult, hst]
    | badJson =>
      simp only [gb_loop] at h
      split at h
      · cases h; rfl
      · rename_i hne
        rw [hst] at hne
        simp at hne
    | ok data =>
      simp only [gb_loop, gb_process, gb_page, GB_parse_response_nil data, List.isEmpty_nil,
        if_true, gb_check] at h
      split at h
      · rename_i r' heq
        (repeat' split at heq) <;>
          first
            | (cases heq
               cases h
               simp [failResult, hst])
            | cases heq
      · rename_i st' heq
        (repeat' split at heq) <;>
          first
            | (cases heq
               simp at h
               rw [← h]
               simp [finishResult, hst])
            | cases heq

/-- The total result count the service reported on the first page that
came back with a JSON body: `numFound` of the first `ok` outcome, when
it is an integer. -/
def ol_first_total : List FetchOutcome → Option Int
  | [] => none
  | FetchOutcome.ok data :: _ =>
    (match pyGet data "numFound" (JValue.int 0) with
     | .ok (JValue.int t) => some t
     | _ => none)
  | _ :: rest => ol_first_total rest

/-- The Google Books analogue of `ol_first_total` (`totalItems`). -/
def gb_first_total : List FetchOutcome → Option Int
  | [] => none
  | FetchOutcome.ok data :: _ =>
    (match pyGet data "totalItems" (JValue.int 0) with
     | .ok (JValue.int t) => some t
     | _ => none)
  | _ :: rest => gb_first_total rest

/-! ## Claims -/

/-- Claim C1 as stated is false: `search_books_by_author` performs no
deduplication (book_finder.py:87-88 sets `unique_books = all_books`),
so a source result carrying two records with the same dedup key yields
a records list in which two entries share that key. -/
theorem C1_counterexample :
    ¬ List.Pairwise (fun x y => dedup_key x ≠ dedup_key y)
        ((search_books_by_author (some dupResult) "frank herbert" false []).1.books) := by
  decide

/-- Claim C1 amended: the records list returned by
`search_books_by_author` is the source's list sorted by year with no
deduplication applied; the helper `_deduplicate_books` — which the
aggregation never invokes — does return a list in which no two records
share a dedup key (the case-folded, whitespace-normalized title joined
with the year or the sentinel `"unknown"`), after stably pre-sorting
by (source, lowercased title, year-or-zero) and keeping the first
occurrence per key. -/
theorem C1_amended :
    (∀ (out : Option SourceResult) (a : String) (u : Bool) (c : Cache),
        2 ≤ (pyStrip a).length → (pyStrip a).length ≤ 200 →
        cacheLookup u (_get_cache_key (pyStrip a)) c = none →
        (search_books_by_author out a u c).1.books = pySortYearDesc (ol_fetch_step out).1) ∧
    (∀ books : List Book,
        List.Pairwise (fun x y => dedup_key x ≠ dedup_key y) (_deduplicate_books books)) := by
  constructor
  · intro out a u c h2 h3 h4
    rw [search_books_eval out a u c h2 h3 h4]
    cases u <;> rfl
  · intro books
    exact (dedupLoop_distinct _ []).2

/-- Witness for C1 at a concrete duplicated source result. -/
theorem C1_witness :
    (search_books_by_author (some dupResult) "frank herbert" false []).1.books
        = pySortYearDesc (ol_fetch_step (some dupResult)).1 ∧
    List.Pairwise (fun x y => dedup_key x ≠ dedup_key y)
      (_deduplicate_books dupResult.books) :=
  ⟨C1_amended.1 (some dupResult) "frank herbert" false [] (by decide) (by decide) rfl,
   C1_amended.2 dupResult.books⟩

/-- Claim C2 as stated is false: the sources mapping of a successful
aggregation names only `open_library`; no `google_books` entry exists
because `search_books_by_author` never invokes `GoogleBooksClient`
(book_finder.py:68-85 fetches "from Open Library only"). -/
theorem C2_counterexample :
    (search_books_by_author (some demoResult) "isaac asimov" false []).1.sources.map Prod.fst
        = ["open_library"] ∧
    "google_books" ∉
      ((search_books_by_author (some demoResult) "isaac asimov" false []).1.sources.map
        Prod.fst) := by
  constructor
  · rfl
  · decide

/-- Claim C2 amended: for every validated, non-cached query the
aggregation invokes only the Open Library client, and the returned
sources mapping holds exactly one entry, keyed `open_library`
(GoogleBooksClient is exported by the api_clients package but never
called by the aggregation). -/
theorem C2_amended :
    ∀ (out : Option SourceResult) (a : String) (u : Bool) (c : Cache),
      2 ≤ (pyStrip a).length → (pyStrip a).length ≤ 200 →
      cacheLookup u (_get_cache_key (pyStrip a)) c = none →
      (search_books_by_author out a u c).1.sources.map Prod.fst = ["open_library"] := by
  intro out a u c h2 h3 h4
  rw [search_books_eval out a u c h2 h3 h4]
  cases u <;> cases out <;> rfl

/-- Witness for C2 at a concrete query. -/
theorem C2_witness :
    (search_books_by_author (some demoResult) "jane austen" true []).1.sources.map Prod.fst
        = ["open_library"] :=
  C2_amended (some demoResult) "jane austen" true [] (by decide) (by decide) rfl

/-- Claim C3 is right and the code is wrong: the scenario the claim
(and the spec) describes — records collected from earlier pages, then
a malformed-JSON body — is unreachable, because no run ever collects a
record: every `Book(..., thumbnail=...)` construction raises
`TypeError` (models/book.py declares no `thumbnail` field), so every
page parses to zero records.  At the named input — a first page with
100 titled docs under a reported total of 250, followed by a
malformed-JSON response — the client returns `success`/count 0 after
the first response, without even requesting the malformed page,
instead of the 100-record `partial` result the spec describes.  (A
malformed body can therefore only ever be the first body received,
where the code does return `error`, the claim's second half; and
independently of the parse defect, the `break` at open_library.py:57
commented "Return what we have so far" would only exit the retry loop,
not return `partial`.) -/
theorem C3_bug_theorem :
    OL_get_books_by_author [FetchOutcome.ok olFullPage, FetchOutcome.badJson]
        = some { books := [], status := SourceStatus.success, error := none,
                 count := some 0 } ∧
    OL_get_books_by_author [FetchOutcome.badJson]
        = some { books := [], status := SourceStatus.error,
                 error := some "Invalid response format", count := none } :=
  ⟨rfl, rfl⟩

/-- Claim C4 as stated is false: a connection failure is not retried.
A trace holding a single connection failure makes the Open Library
client return `error` after that one attempt (no second outcome is
consumed), whereas a single timeout leaves the client still retrying
(the one-element trace is exhausted without a return). -/
theorem C4_counterexample :
    OL_get_books_by_author [FetchOutcome.connError]
        = some { books := [], status := SourceStatus.error,
                 error := some "Connection failed", count := none } ∧
    OL_get_books_by_author [FetchOutcome.timeout] = none :=
  ⟨rfl, rfl⟩

/-- Claim C4 amended: in both clients a timeout is retried — a first
timeout re-issues the page request, and only the second consecutive
timeout returns `partial` (records collected) or `error` — while a
connection failure is never retried: the first one immediately returns
`partial` or `error`. -/
theorem C4_amended :
    ∀ (rest : List FetchOutcome) (stOL : OLState) (stGB : GBState) (attempt : Nat),
      (ol_loop (FetchOutcome.timeout :: rest) stOL 0 = ol_loop rest stOL 1) ∧
      (ol_loop (FetchOutcome.timeout :: rest) stOL 1
          = some (failResult stOL.all_books "Request timeout, partial results"
              "Request timeout")) ∧
      (ol_loop (FetchOutcome.connError :: rest) stOL attempt
          = some (failResult stOL.all_books "Connection failed, partial results"
              "Connection failed")) ∧
      (gb_loop (FetchOutcome.timeout :: rest) stGB 0 = gb_loop rest stGB 1) ∧
      (gb_loop (FetchOutcome.timeout :: rest) stGB 1
          = some (failResult stGB.all_books "Request timeout, partial results"
              "Request timeout")) ∧
      (gb_loop (FetchOutcome.connError :: rest) stGB attempt
          = some (failResult stGB.all_books "Connection failed, partial results"
              "Connection failed")) := by
  intro rest stOL stGB attempt
  exact ⟨rfl, rfl, rfl, rfl, rfl, rfl⟩

/-- A source result whose records exercise descending order, an absent
year, and a year tie. -/
def sortDemoResult : SourceResult :=
  { books :=
      [{ title := "a", published_year := some 1990, url := "", source := "open_library" },
       { title := "b", published_year := none, url := "", source := "open_library" },
       { title := "c", published_year := some 2001, url := "", source := "open_library" },
       { title := "d", published_year := some 1990, url := "", source := "open_library" }],
    status := SourceStatus.success, error := none, count := some 4 }

/-- Claim C5: for every validated, non-cached query the returned
records list is the source list sorted stably by published year
descending, records with an absent year keyed as year 0 (hence last):
the list is pairwise non-increasing in the year key, and for every
year key the records carrying it appear in their pre-sort relative
order. -/
theorem C5_theorem :
    ∀ (out : Option SourceResult) (a : String) (u : Bool) (c : Cache),
      2 ≤ (pyStrip a).length → (pyStrip a).length ≤ 200 →
      cacheLookup u (_get_cache_key (pyStrip a)) c = none →
      (search_books_by_author out a u c).1.books = pySortYearDesc (ol_fetch_step out).1 ∧
      ((search_books_by_author out a u c).1.books).Pairwise
        (fun x y => yearKey y ≤ yearKey x) ∧
      (∀ k : Int,
        ((search_books_by_author out a u c).1.books).filter (fun b => yearKey b == k)
          = ((ol_fetch_step out).1).filter (fun b => yearKey b == k)) := by
  intro out a u c h2 h3 h4
  have he : (search_books_by_author out a u c).1.books
      = pySortYearDesc (ol_fetch_step out).1 := by
    rw [search_books_eval out a u c h2 h3 h4]
    cases u <;> rfl
  refine ⟨he, ?_, ?_⟩
  · rw [he]
    exact pairwise_pySortYearDesc _
  · intro k
    rw [he]
    exact filter_pySortYearDesc _ k

/-- Witness for C5 at a concrete four-record source result. -/
theorem C5_witness :
    (search_books_by_author (some sortDemoResult) "ursula le guin" true []).1.books
        = pySortYearDesc (ol_fetch_step (some sortDemoResult)).1 ∧
    ((search_books_by_author (some sortDemoResult) "ursula le guin" true []).1.books).Pairwise
      (fun x y => yearKey y ≤ yearKey x) ∧
    (∀ k : Int,
      ((search_books_by_author (some sortDemoResult) "ursula le guin" true []).1.books).filter
          (fun b => yearKey b == k)
        = ((ol_fetch_step (some sortDemoResult)).1).filter (fun b => yearKey b == k)) :=
  C5_theorem (some sortDemoResult) "ursula le guin" true [] (by decide) (by decide) rfl

/-- Claim C6: with the same underlying source data a repeated search
returns identical content, and the cache key is the case-folded,
trimmed query — a second call whose author name differs only in letter
case or surrounding whitespace (same case-folded trimmed form) returns
exactly the stored result of the first call, independently of the
second call's source outcome (no recomputation), leaving the cache
unchanged. -/
theorem C6_theorem :
    ∀ (out1 out2 : Option SourceResult) (a1 a2 : String) (c : Cache),
      2 ≤ (pyStrip a1).length → (pyStrip a1).length ≤ 200 →
      cacheLookup true (_get_cache_key (pyStrip a1)) c = none →
      pyLower (pyStrip a2) = pyLower (pyStrip a1) →
      search_books_by_author out2 a2 true (search_books_by_author out1 a1 true c).2
        = ((search_books_by_author out1 a1 true c).1,
           (search_books_by_author out1 a1 true c).2) := by
  intro out1 out2 a1 a2 c h2 h3 h4 hlow
  have e1 := search_books_eval out1 a1 true c h2 h3 h4
  rw [if_pos rfl] at e1
  rw [e1]
  have hlen2 : (pyStrip a2).length = (pyStrip a1).length := by
    rw [← pyLower_length (pyStrip a2), ← pyLower_length (pyStrip a1), hlow]
  have hne2 : pyStrip a2 ≠ "" := pyStrip_ne_of_length (by omega)
  have hkey : _get_cache_key (pyStrip a2) = _get_cache_key (pyStrip a1) := by
    unfold _get_cache_key
    rw [hlow]
  exact search_cache_hit out2 a2 _ _ c hne2 hkey

/-- Witness for C6: the second call differs in case and whitespace and
carries a different (failing) source outcome, yet returns the stored
result. -/
theorem C6_witness :
    search_books_by_author none "  TOLKIEN  " true
        (search_books_by_author (some demoResult) "Tolkien" true []).2
      = ((search_books_by_author (some demoResult) "Tolkien" true []).1,
         (search_books_by_author (some demoResult) "Tolkien" true []).2) :=
  C6_theorem (some demoResult) none "Tolkien" "  TOLKIEN  " [] (by decide) (by decide) rfl
    (by decide)

/-- Claim C7: the empty and whitespace-only names fail validation with
the empty-name error before the cache or any source client is consulted
(the result does not depend on the source outcome); a name of trimmed
length 1 fails as too short and a trimmed length above 200 fails as too
long, both before any source activity; trimmed lengths exactly 2 and
exactly 200 are accepted and flow through to the source fetch. -/
theorem C7_theorem :
    (∀ (out : Option SourceResult) (u : Bool) (c : Cache),
        search_books_by_author out "" u c
          = ({ books := [], sources := [],
               error := some "Author name cannot be empty" }, c)) ∧
    (∀ (out : Option SourceResult) (u : Bool) (c : Cache) (a : String), pyStrip a = "" →
        search_books_by_author out a u c
          = ({ books := [], sources := [],
               error := some "Author name cannot be empty" }, c)) ∧
    (∀ (out : Option SourceResult) (u : Bool) (c : Cache) (a : String),
        (pyStrip a).length = 1 →
        cacheLookup u (_get_cache_key (pyStrip a)) c = none →
        search_books_by_author out a u c
          = ({ books := [], sources := [],
               error := some "Author name too short (minimum 2 characters)" }, c)) ∧
    (∀ (out : Option SourceResult) (u : Bool) (c : Cache) (a : String),
        200 < (pyStrip a).length →
        cacheLookup u (_get_cache_key (pyStrip a)) c = none →
        search_books_by_author out a u c
          = ({ books := [], sources := [],
               error := some "Author name too long (maximum 200 characters)" }, c)) ∧
    (∀ (out : Option SourceResult) (c : Cache) (a : String),
        ((pyStrip a).length = 2 ∨ (pyStrip a).length = 200) →
        cacheLookup true (_get_cache_key (pyStrip a)) c = none →
        (search_books_by_author out a true c).1.error = none ∧
        (search_books_by_author out a true c).1.books
            = pySortYearDesc (ol_fetch_step out).1 ∧
        (search_books_by_author out a true c).1.sources = (ol_fetch_step out).2) := by
  refine ⟨?_, ?_, ?_, ?_, ?_⟩
  · intro out u c
    rfl
  · intro out u c a h
    simp only [search_books_by_author, if_pos (Or.inr h)]
  · intro out u c a hlen h4
    have hne : pyStrip a ≠ "" := pyStrip_ne_of_length (by omega)
    simp only [search_books_by_author, if_neg (search_not_empty_cond hne), h4]
    rw [if_pos (by omega)]
  · intro out u c a hlen h4
    have hne : pyStrip a ≠ "" := pyStrip_ne_of_length (by omega)
    simp only [search_books_by_author, if_neg (search_not_empty_cond hne), h4]
    rw [if_neg (by omega), if_pos (by omega)]
  · intro out c a hlen h4
    have h2 : 2 ≤ (pyStrip a).length := by omega
    have h3 : (pyStrip a).length ≤ 200 := by omega
    rw [search_books_eval out a true c h2 h3 h4, if_pos rfl]
    exact ⟨rfl, rfl, rfl⟩

set_option maxRecDepth 40000 in
/-- Witness for C7: concrete names at and beyond each validation
boundary.  `"x"` is rejected as too short, a 201-character name as too
long, while names of trimmed lengths 2 and 200 are accepted. -/
theorem C7_witness :
    (search_books_by_author (some demoResult) "" true []
        = ({ books := [], sources := [],
             error := some "Author name cannot be empty" }, [])) ∧
    (search_books_by_author (some demoResult) " " true []
        = ({ books := [], sources := [],
             error := some "Author name cannot be empty" }, [])) ∧
    (search_books_by_author (some demoResult) "x" true []
        = ({ books := [], sources := [],
             error := some "Author name too short (minimum 2 characters)" }, [])) ∧
    (search_books_by_author (some demoResult) (String.mk (List.replicate 201 'x')) true []
        = ({ books := [], sources := [],
             error := some "Author name too long (maximum 200 characters)" }, [])) ∧
    (search_books_by_author (some demoResult) "xy" true []).1.error = none ∧
    (search_books_by_author (some demoResult) (String.mk (List.replicate 200 'x')) true
        []).1.error = none := by
  refine ⟨C7_theorem.1 (some demoResult) true [],
          C7_theorem.2.1 (some demoResult) true [] " " (by decide),
          C7_theorem.2.2.1 (some demoResult) true [] "x" (by decide) rfl,
          C7_theorem.2.2.2.1 (some demoResult) true [] (String.mk (List.replicate 201 'x'))
            (by decide) rfl,
          (C7_theorem.2.2.2.2 (some demoResult) [] "xy" (Or.inl (by decide)) rfl).1,
          (C7_theorem.2.2.2.2 (some demoResult) [] (String.mk (List.replicate 200 'x'))
            (Or.inr (by decide)) rfl).1⟩

/-- An Open Library doc with only a title. -/
def duneOLDoc : JValue := JValue.obj [("title", JValue.str "dune")]

/-- A page reporting `numFound` 1 and carrying two titled docs. -/
def overshootPage : JValue :=
  JValue.obj [("numFound", JValue.int 1), ("docs", JValue.list [duneOLDoc, duneOLDoc])]

/-- A Google Books page reporting zero total items. -/
def gbZeroPage : JValue := JValue.obj [("totalItems", JValue.int 0)]

/-- Claim C8: for every terminating run of either client that returns
status `success`, the error field is absent, and the number of records
returned never exceeds the (non-negative) total result count the
service reported on the first page that came back — in this source no
record at all is ever returned, since every page parses to zero
records (`Book(..., thumbnail=...)` raises), so the bound holds for
every non-negative reported total. -/
theorem C8_theorem :
    ∀ (trace : List FetchOutcome) (r : SourceResult),
      (OL_get_books_by_author trace = some r → r.status = SourceStatus.success →
        r.error = none ∧
          ∀ t : Int, ol_first_total trace = some t → 0 ≤ t →
            (r.books.length : Int) ≤ t) ∧
      (GB_get_books_by_author trace = some r → r.status = SourceStatus.success →
        r.error = none ∧
          ∀ t : Int, gb_first_total trace = some t → 0 ≤ t →
            (r.books.length : Int) ≤ t) := by
  intro trace r
  constructor
  · intro h hs
    refine ⟨(ol_loop_success_shape trace _ 0 r h hs).1, ?_⟩
    intro t _ h0
    have hb : r.books = [] := ol_loop_books_empty trace _ 0 r rfl h
    rw [hb]
    simpa using h0
  · intro h hs
    refine ⟨(gb_loop_success_shape trace _ 0 r h hs).1, ?_⟩
    intro t _ h0
    have hb : r.books = [] := gb_loop_books_empty trace _ 0 r rfl h
    rw [hb]
    simpa using h0

/-- Witness for C8 at concrete successful runs of both clients (the
Open Library page reports total 1, the Google Books page total 0). -/
theorem C8_witness :
    (({ books := [], status := SourceStatus.success, error := none,
        count := some 0 } : SourceResult).error = none ∧
      ((({ books := [], status := SourceStatus.success, error := none,
           count := some 0 } : SourceResult).books.length : Int) ≤ 1)) ∧
    (({ books := [], status := SourceStatus.success, error := none,
        count := some 0 } : SourceResult).error = none ∧
      ((({ books := [], status := SourceStatus.success, error := none,
           count := some 0 } : SourceResult).books.length : Int) ≤ 0)) := by
  have h1 := (C8_theorem [FetchOutcome.ok overshootPage]
      { books := [], status := SourceStatus.success, error := none, count := some 0 }).1
    rfl rfl
  have h2 := (C8_theorem [FetchOutcome.ok gbZeroPage]
      { books := [], status := SourceStatus.success, error := none, count := some 0 }).2
    rfl rfl
  exact ⟨⟨h1.1, h1.2 1 rfl (by decide)⟩, ⟨h2.1, h2.2 0 rfl (by decide)⟩⟩

/-- Claim C9 is right and the code is wrong: year extraction is not
total.  `OpenLibraryClient._extract_year` raises `ValueError` on a
non-numeric `first_publish_year` string (`int(year)` at
open_library.py:212 is unguarded) and `TypeError` when `publish_year`
is a truthy non-list (the `except` at open_library.py:219 catches only
`ValueError` and `IndexError`); `GoogleBooksClient._extract_year`
raises `AttributeError` when a truthy `publishedDate` is not a string
(`.split` at google_books.py:223).  Each exception escapes the
extractor and is only stopped by `_parse_response`'s blanket handler,
which abandons the rest of the page — the item is never normalized
with an absent year as the claim requires. -/
theorem C9_bug_theorem :
    OL_extract_year [("first_publish_year", JValue.str "unknown")]
        = Except.error PyErr.valueError ∧
    OL_extract_year [("publish_year", JValue.int 1990)] = Except.error PyErr.typeError ∧
    GB_extract_year [("publishedDate", JValue.int 1999)] = Except.error PyErr.attrError :=
  ⟨rfl, rfl, rfl⟩

/-- Claim C10: when the fetch pipeline completes with `use_cache=True`,
the result is stored unconditionally — the source outcome is arbitrary
here, including a failed one — and every subsequent call whose author
name maps to the same key returns the stored result without consulting
the source again (the second call's outcome is arbitrary and unused)
and without modifying the cache. -/
theorem C10_theorem :
    ∀ (out : Option SourceResult) (a : String) (c : Cache),
      2 ≤ (pyStrip a).length → (pyStrip a).length ≤ 200 →
      cacheLookup true (_get_cache_key (pyStrip a)) c = none →
      ((search_books_by_author out a true c).2).lookup (_get_cache_key (pyStrip a))
          = some (search_books_by_author out a true c).1 ∧
      (∀ out2 : Option SourceResult,
        search_books_by_author out2 a true (search_books_by_author out a true c).2
          = ((search_books_by_author out a true c).1,
             (search_books_by_author out a true c).2)) := by
  intro out a c h2 h3 h4
  have e1 := search_books_eval out a true c h2 h3 h4
  rw [if_pos rfl] at e1
  rw [e1]
  constructor
  · simp [List.lookup]
  · intro out2
    have hne : pyStrip a ≠ "" := pyStrip_ne_of_length (by omega)
    exact search_cache_hit out2 a _ _ c hne rfl

/-- Witness for C10: the source client raises, the resulting
`error`-status empty result is cached, and the repeated call returns
it unchanged. -/
theorem C10_witness :
    ((search_books_by_author none "george orwell" true []).2).lookup
        (_get_cache_key (pyStrip "george orwell"))
      = some (search_books_by_author none "george orwell" true []).1 ∧
    (∀ out2 : Option SourceResult,
      search_books_by_author out2 "george orwell" true
          (search_books_by_author none "george orwell" true []).2
        = ((search_books_by_author none "george orwell" true []).1,
           (search_books_by_author none "george orwell" true []).2)) :=
  C10_theorem none "george orwell" [] (by decide) (by decide) rfl

end BookFinder
